import Mathlib

/-!
Verification of the gLabels-qt label document model (`LabelModel.cpp`) and the
template/paper/vendor registry (`Db.cpp`) against its natural-language
specification.

Doubles are modelled as rationals (the alignment arithmetic involves only
addition, subtraction, comparison, halving and one exact division, so the
rational model is exact for the inputs considered).  Qt signals are modelled
as an explicit list of events returned next to the new state.  C++ object
identity (pointers held in `QList<LabelModelObject*>`) is modelled by a
natural-number `id` field.
-/

namespace glabels

/-- Modelled from the spec: `LabelRegion` (LabelRegion.h is not among the
sources): an axis-aligned bounding box given by two corner points
(x1,y1)-(x2,y2), not assumed normalized. -/
structure LabelRegion where
  x1 : ℚ
  y1 : ℚ
  x2 : ℚ
  y2 : ℚ
  deriving DecidableEq

/-- Modelled from the spec: `LabelModelObject` (LabelModelObject.h/.cpp are
not among the sources): a positionable, selectable item on the canvas with an
identity (the C++ pointer identity, modelled as a natural number), an extent
(bounding box corners), and a selected flag. -/
structure LabelModelObject where
  id : ℕ
  x1 : ℚ
  y1 : ℚ
  x2 : ℚ
  y2 : ℚ
  selected : Bool
  deriving DecidableEq

namespace LabelModelObject

/-- Modelled from the spec: the extent is the object's axis-aligned bounding
box in page coordinates. -/
def getExtent (o : LabelModelObject) : LabelRegion :=
  ⟨o.x1, o.y1, o.x2, o.y2⟩

def isSelected (o : LabelModelObject) : Bool :=
  o.selected

/-- Modelled from the spec: `select()` sets the selected flag; selection-only
operations relay no `changed` notification through the model. -/
def select (o : LabelModelObject) : LabelModelObject :=
  { o with selected := true }

/-- Modelled from the spec: `unselect()` clears the selected flag. -/
def unselect (o : LabelModelObject) : LabelModelObject :=
  { o with selected := false }

/-- Modelled from the spec: `setPositionRelative(dx,dy)` translates the
object, and hence its extent, by (dx,dy). -/
def setPositionRelative (o : LabelModelObject) (dx dy : ℚ) : LabelModelObject :=
  { o with x1 := o.x1 + dx, x2 := o.x2 + dx, y1 := o.y1 + dy, y2 := o.y2 + dy }

end LabelModelObject

/-- The notification signals emitted by `LabelModel` (the Qt signals of
LabelModel.cpp), tagged with the identity of the object concerned. -/
inductive Event
  | objectAdded (oid : ℕ)
  | objectDeleted (oid : ℕ)
  | objectToTop (oid : ℕ)
  | objectToBottom (oid : ℕ)
  | selectionChanged
  | changed
  deriving DecidableEq

/-- The label document model (LabelModel.cpp): the stacking-ordered object
list (`mObjectList`, front of the list = bottom of the stack) and the
modified flag. -/
structure LabelModel where
  mObjectList : List LabelModelObject
  mModified : Bool
  deriving DecidableEq

/-- `QList::removeOne`: removes the first element with the given identity
(pointer comparison in the C++). -/
def removeOneById : List LabelModelObject → ℕ → List LabelModelObject
  | [], _ => []
  | o :: rest, oid => if o.id = oid then rest else o :: removeOneById rest oid

/-- The containment test of `LabelModel::selectRegion` (LabelModel.cpp,
lines 154-166): the region corners are normalized with min/max and the
object's extent must lie inside on all four edges. -/
def LabelRegion.containsExtent (region extent : LabelRegion) : Bool :=
  decide (min region.x1 region.x2 ≤ extent.x1) &&
  decide (extent.x2 ≤ max region.x1 region.x2) &&
  decide (min region.y1 region.y2 ≤ extent.y1) &&
  decide (extent.y2 ≤ max region.y1 region.y2)

namespace LabelModel

/-- `LabelModel::selectObject` (LabelModel.cpp 102-107): sets the selected
flag of the given object and emits only `selectionChanged`. -/
def selectObject (m : LabelModel) (oid : ℕ) : LabelModel × List Event :=
  ({ m with mObjectList := m.mObjectList.map fun o => if o.id = oid then o.select else o },
   [Event.selectionChanged])

/-- `LabelModel::unselectObject` (LabelModel.cpp 113-118). -/
def unselectObject (m : LabelModel) (oid : ℕ) : LabelModel × List Event :=
  ({ m with mObjectList := m.mObjectList.map fun o => if o.id = oid then o.unselect else o },
   [Event.selectionChanged])

/-- `LabelModel::selectAll` (LabelModel.cpp 124-132). -/
def selectAll (m : LabelModel) : LabelModel × List Event :=
  ({ m with mObjectList := m.mObjectList.map fun o => o.select },
   [Event.selectionChanged])

/-- `LabelModel::unselectAll` (LabelModel.cpp 138-146). -/
def unselectAll (m : LabelModel) : LabelModel × List Event :=
  ({ m with mObjectList := m.mObjectList.map fun o => o.unselect },
   [Event.selectionChanged])

/-- `LabelModel::selectRegion` (LabelModel.cpp 152-173): selects every object
whose extent lies within the normalized region; already-selected objects are
left selected. -/
def selectRegion (m : LabelModel) (region : LabelRegion) : LabelModel × List Event :=
  ({ m with mObjectList := m.mObjectList.map fun o =>
      if region.containsExtent o.getExtent then o.select else o },
   [Event.selectionChanged])

/-- `LabelModel::isSelectionEmpty` (LabelModel.cpp 179-190). -/
def isSelectionEmpty (m : LabelModel) : Bool :=
  !(m.mObjectList.any fun o => o.isSelected)

/-- `LabelModel::isSelectionAtomic` (LabelModel.cpp 196-213): exactly one
object is selected. -/
def isSelectionAtomic (m : LabelModel) : Bool :=
  (m.mObjectList.countP fun o => o.isSelected) == 1

/-- `LabelModel::getSelection` (LabelModel.cpp 219-231).  The C++ builds
`selectedList` and then falls off the end without a return statement
(undefined behavior); following the spec's assumed contract, the intended
value — the selected subsequence in stacking order — is modelled here. -/
def getSelection (m : LabelModel) : List LabelModelObject :=
  m.mObjectList.filter fun o => o.isSelected

/-- `LabelModel::getFirstSelectedObject` (LabelModel.cpp 237-246).  The C++
falls off the end when no object is selected (undefined behavior); following
the spec's assumed contract the absent case is modelled as `none`. -/
def getFirstSelectedObject (m : LabelModel) : Option LabelModelObject :=
  m.mObjectList.find? fun o => o.isSelected

/-- `LabelModel::deleteObject` (LabelModel.cpp 85-96): unselects the object,
removes it from the order (`QList::removeOne`), marks modified, emits
`objectDeleted` then `changed`. -/
def deleteObject (m : LabelModel) (oid : ℕ) : LabelModel × List Event :=
  ({ mObjectList :=
       removeOneById (m.mObjectList.map fun o => if o.id = oid then o.unselect else o) oid,
     mModified := true },
   [Event.objectDeleted oid, Event.changed])

/-- `LabelModel::raiseSelectionToTop` (LabelModel.cpp 339-358): removes each
selected object from the list, then appends them in selection order at the
end (top-most). -/
def raiseSelectionToTop (m : LabelModel) : LabelModel × List Event :=
  let selectedList := m.getSelection
  let rest := selectedList.foldl (fun acc o => removeOneById acc o.id) m.mObjectList
  ({ mObjectList := rest ++ selectedList, mModified := true },
   (selectedList.map fun o => Event.objectToTop o.id) ++ [Event.changed])

/-- `LabelModel::lowerSelectionToBottom` (LabelModel.cpp 364-383): removes
each selected object from the list, then pushes each in turn onto the front
(bottom-most). -/
def lowerSelectionToBottom (m : LabelModel) : LabelModel × List Event :=
  let selectedList := m.getSelection
  let rest := selectedList.foldl (fun acc o => removeOneById acc o.id) m.mObjectList
  ({ mObjectList := selectedList.foldl (fun acc o => o :: acc) rest, mModified := true },
   (selectedList.map fun o => Event.objectToBottom o.id) ++ [Event.changed])

/-- `LabelModel::alignSelectionLeft` (LabelModel.cpp 464-492): no-op when 0
or 1 objects are selected; otherwise folds over the selection for the
left-most x1 starting from the sentinel 7200 (100 inches), then shifts every
selected object so its x1 lands there.  The C++ second loop iterates over the
selection pointers; since each object is moved exactly once and its shift
depends only on its own pre-move extent, the per-object map below is
equivalent. -/
def alignSelectionLeft (m : LabelModel) : LabelModel × List Event :=
  if m.isSelectionEmpty || m.isSelectionAtomic then (m, [])
  else
    let x1min := m.getSelection.foldl
      (fun acc o => if o.getExtent.x1 < acc then o.getExtent.x1 else acc) 7200
    ({ mObjectList := m.mObjectList.map fun o =>
        if o.isSelected then o.setPositionRelative (x1min - o.getExtent.x1) 0 else o,
       mModified := true },
     [Event.changed])

/-- `LabelModel::alignSelectionRight` (LabelModel.cpp 498-526): folds over
the selection for the largest **x1** (not x2) starting from the sentinel
-7200, then shifts every selected object so its **x1** lands there (the code
comments speak of lining up right edges, but the computation uses x1). -/
def alignSelectionRight (m : LabelModel) : LabelModel × List Event :=
  if m.isSelectionEmpty || m.isSelectionAtomic then (m, [])
  else
    let x1max := m.getSelection.foldl
      (fun acc o => if o.getExtent.x1 > acc then o.getExtent.x1 else acc) (-7200)
    ({ mObjectList := m.mObjectList.map fun o =>
        if o.isSelected then o.setPositionRelative (x1max - o.getExtent.x1) 0 else o,
       mModified := true },
     [Event.changed])

end LabelModel

/-- The horizontal center of an object's extent, (x1+x2)/2, as computed
throughout `LabelModel::alignSelectionHCenter`. -/
def hCenter (o : LabelModelObject) : ℚ :=
  (o.getExtent.x1 + o.getExtent.x2) / 2

/-- The first loop of `LabelModel::alignSelectionHCenter` (LabelModel.cpp
541-550): the arithmetic mean of the selected objects' horizontal centers
(`xsum / n`). -/
def hMean (m : LabelModel) : ℚ :=
  (m.getSelection.foldl (fun s o => s + hCenter o) 0) / (m.getSelection.length : ℚ)

/-- The second loop of `LabelModel::alignSelectionHCenter` (LabelModel.cpp
552-564): starting from the candidate pair (|xavg - 7200|, 7200) — the
sentinel center 7200 — each selected object replaces the candidate exactly
when its center is strictly closer to the mean; the final candidate center is
the alignment anchor. -/
def hAnchor (m : LabelModel) : ℚ :=
  (m.getSelection.foldl
     (fun best o =>
       if |hMean m - hCenter o| < best.1 then (|hMean m - hCenter o|, hCenter o) else best)
     (|hMean m - 7200|, (7200 : ℚ))).2

namespace LabelModel

/-- `LabelModel::alignSelectionHCenter` (LabelModel.cpp 532-577): no-op when
0 or 1 objects are selected; otherwise shifts every selected object so its
horizontal center lands on the anchor `hAnchor` computed from the mean of the
selected centers. -/
def alignSelectionHCenter (m : LabelModel) : LabelModel × List Event :=
  if m.isSelectionEmpty || m.isSelectionAtomic then (m, [])
  else
    ({ mObjectList := m.mObjectList.map fun o =>
        if o.isSelected then o.setPositionRelative (hAnchor m - hCenter o) 0 else o,
       mModified := true },
     [Event.changed])

end LabelModel

/-! ## The template/paper/vendor/category registry (Db.cpp)

`QString` identifiers are modelled as `String`; a null or empty `QString`
(the `isNull() || isEmpty()` tests of the C++) is modelled as the empty
string.  `QList::first()` on the registry lists, which the C++ calls without
an emptiness check, is modelled by `List.head?`; the lookups therefore return
an `Option`. -/

/-- A paper entry of the registry; the fields Db.cpp reads (`id()`,
`name()`). -/
structure Paper where
  id : String
  name : String
  deriving DecidableEq

/-- A category entry of the registry (`id()`, `name()`). -/
structure Category where
  id : String
  name : String
  deriving DecidableEq

/-- A vendor entry of the registry (`name()`, `url()`). -/
structure Vendor where
  name : String
  url : String
  deriving DecidableEq

/-- A template entry of the registry (`brand()`, `part()`, `name()`). -/
structure Template where
  brand : String
  part : String
  name : String
  deriving DecidableEq

/-- The static registry state of `Db` (Db.cpp 55-64). -/
structure Db where
  mPapers : List Paper
  mCategories : List Category
  mVendors : List Vendor
  mTemplates : List Template
  mPaperNameOther : String
  deriving DecidableEq

namespace Db

/-- `Db::lookupPaperFromName` (Db.cpp 160-178): a null/empty name yields the
first registered paper; otherwise the first paper with that name, or NULL
(`none`) when there is no match. -/
def lookupPaperFromName (db : Db) (name : String) : Option Paper :=
  if name = "" then db.mPapers.head?
  else db.mPapers.find? fun p => p.name == name

/-- `Db::lookupPaperFromId` (Db.cpp 181-199). -/
def lookupPaperFromId (db : Db) (pid : String) : Option Paper :=
  if pid = "" then db.mPapers.head?
  else db.mPapers.find? fun p => p.id == pid

/-- `Db::lookupPaperIdFromName` (Db.cpp 202-215): for a non-empty name,
delegates to `lookupPaperFromName` and extracts the id; a null/empty name
(or an unknown one) falls through to the empty string. -/
def lookupPaperIdFromName (db : Db) (name : String) : String :=
  if name ≠ "" then
    match db.lookupPaperFromName name with
    | some paper => paper.id
    | none => ""
  else ""

/-- `Db::lookupCategoryFromName` (Db.cpp 274-292). -/
def lookupCategoryFromName (db : Db) (name : String) : Option Category :=
  if name = "" then db.mCategories.head?
  else db.mCategories.find? fun c => c.name == name

/-- `Db::lookupCategoryFromId` (Db.cpp 295-313). -/
def lookupCategoryFromId (db : Db) (cid : String) : Option Category :=
  if cid = "" then db.mCategories.head?
  else db.mCategories.find? fun c => c.id == cid

/-- `Db::lookupVendorFromName` (Db.cpp 376-394). -/
def lookupVendorFromName (db : Db) (name : String) : Option Vendor :=
  if name = "" then db.mVendors.head?
  else db.mVendors.find? fun v => v.name == name

/-- `Db::lookupTemplateFromName` (Db.cpp 441-459). -/
def lookupTemplateFromName (db : Db) (name : String) : Option Template :=
  if name = "" then db.mTemplates.head?
  else db.mTemplates.find? fun t => t.name == name

/-- `Db::lookupTemplateFromBrandPart` (Db.cpp 462-480). -/
def lookupTemplateFromBrandPart (db : Db) (brand part : String) : Option Template :=
  if brand = "" || part = "" then db.mTemplates.head?
  else db.mTemplates.find? fun t => t.brand == brand && t.part == part

end Db

/-! ## Specification-side predicates and concrete example models -/

/-- The minimum of the sentinel 7200 and the selected objects' x1
coordinates — the value `alignSelectionLeft` actually aligns on. -/
def selectionMinX1 (m : LabelModel) : ℚ :=
  m.getSelection.foldl (fun acc o => min acc o.getExtent.x1) 7200

/-- Outcome of `alignSelectionLeft` on a selection of two or more objects:
every selected object keeps its identity, height, width and y-coordinates and
ends with its left edge at `selectionMinX1`; unselected objects are
untouched. -/
def alignLeftOutcome (m : LabelModel) : Prop :=
  List.Forall₂ (fun o o' =>
      (o.isSelected = true →
        o'.getExtent.x1 = selectionMinX1 m ∧
        o'.getExtent.x2 - o'.getExtent.x1 = o.getExtent.x2 - o.getExtent.x1 ∧
        o'.getExtent.y1 = o.getExtent.y1 ∧
        o'.getExtent.y2 = o.getExtent.y2 ∧
        o'.id = o.id ∧ o'.isSelected = true) ∧
      (o.isSelected = false → o' = o))
    m.mObjectList (m.alignSelectionLeft).1.mObjectList

/-- Outcome of `alignSelectionHCenter` on a selection of two or more objects:
every selected object keeps its identity, width and y-coordinates and ends
with its horizontal center at the anchor `hAnchor`; unselected objects are
untouched. -/
def alignHCenterOutcome (m : LabelModel) : Prop :=
  List.Forall₂ (fun o o' =>
      (o.isSelected = true →
        hCenter o' = hAnchor m ∧
        o'.getExtent.x2 - o'.getExtent.x1 = o.getExtent.x2 - o.getExtent.x1 ∧
        o'.getExtent.y1 = o.getExtent.y1 ∧
        o'.getExtent.y2 = o.getExtent.y2 ∧
        o'.id = o.id ∧ o'.isSelected = true) ∧
      (o.isSelected = false → o' = o))
    m.mObjectList (m.alignSelectionHCenter).1.mObjectList

/-- Outcome of the restacking operations: raising keeps the selected objects
in their relative stacking order behind the unselected remainder, lowering
reinserts them at the bottom in reversed relative order. -/
def restackOutcome (m : LabelModel) : Prop :=
  (m.raiseSelectionToTop).1.mObjectList
      = (m.mObjectList.filter fun o => !o.isSelected) ++ m.getSelection
  ∧ (m.lowerSelectionToBottom).1.mObjectList
      = m.getSelection.reverse ++ (m.mObjectList.filter fun o => !o.isSelected)

/-- A selection-only operation's frame: the modified flag is untouched and
every object keeps its identity and extent (only selected flags may move). -/
def frameOnlySelection (m m' : LabelModel) : Prop :=
  m'.mModified = m.mModified ∧
  List.Forall₂ (fun o o' => o'.id = o.id ∧ o'.getExtent = o.getExtent)
    m.mObjectList m'.mObjectList

/-- After `deleteObject oid`, no object with identity `oid` remains in the
object list nor in the selection. -/
def deletedGone (m : LabelModel) (oid : ℕ) : Prop :=
  (∀ o ∈ ((m.deleteObject oid).1).mObjectList, ¬ o.id = oid) ∧
  (∀ o ∈ ((m.deleteObject oid).1).getSelection, ¬ o.id = oid)

/-- Registry lookup behaviour, per family and per lookup function: an empty
identifier (either identifier, for the brand/part lookup) yields the first
registered entry; a non-empty identifier with no match yields `none`; a
returned entry is a registered entry matching the identifier; the derived
string-returning lookup yields the empty string both on an empty name and on
an unknown non-empty name — never the first entry. -/
def registryLookupOutcome (db : Db) : Prop :=
  ((∃ p, db.mPapers.head? = some p ∧ db.lookupPaperFromName "" = some p ∧
      db.lookupPaperFromId "" = some p)
    ∧ (∀ name : String, ¬ name = "" → (∀ p ∈ db.mPapers, ¬ p.name = name) →
        db.lookupPaperFromName name = none)
    ∧ (∀ (name : String) (p : Paper), ¬ name = "" →
        db.lookupPaperFromName name = some p → p ∈ db.mPapers ∧ p.name = name)
    ∧ (∀ (pid : String), ¬ pid = "" → (∀ p ∈ db.mPapers, ¬ p.id = pid) →
        db.lookupPaperFromId pid = none)
    ∧ (∀ (pid : String) (p : Paper), ¬ pid = "" →
        db.lookupPaperFromId pid = some p → p ∈ db.mPapers ∧ p.id = pid))
  ∧ ((∃ c, db.mCategories.head? = some c ∧ db.lookupCategoryFromName "" = some c ∧
      db.lookupCategoryFromId "" = some c)
    ∧ (∀ name : String, ¬ name = "" → (∀ c ∈ db.mCategories, ¬ c.name = name) →
        db.lookupCategoryFromName name = none)
    ∧ (∀ (name : String) (c : Category), ¬ name = "" →
        db.lookupCategoryFromName name = some c → c ∈ db.mCategories ∧ c.name = name)
    ∧ (∀ (cid : String), ¬ cid = "" → (∀ c ∈ db.mCategories, ¬ c.id = cid) →
        db.lookupCategoryFromId cid = none)
    ∧ (∀ (cid : String) (c : Category), ¬ cid = "" →
        db.lookupCategoryFromId cid = some c → c ∈ db.mCategories ∧ c.id = cid))
  ∧ ((∃ v, db.mVendors.head? = some v ∧ db.lookupVendorFromName "" = some v)
    ∧ (∀ name : String, ¬ name = "" → (∀ v ∈ db.mVendors, ¬ v.name = name) →
        db.lookupVendorFromName name = none)
    ∧ (∀ (name : String) (v : Vendor), ¬ name = "" →
        db.lookupVendorFromName name = some v → v ∈ db.mVendors ∧ v.name = name))
  ∧ ((∃ t, db.mTemplates.head? = some t ∧ db.lookupTemplateFromName "" = some t ∧
      ∀ brand part : String, brand = "" ∨ part = "" →
        db.lookupTemplateFromBrandPart brand part = some t)
    ∧ (∀ name : String, ¬ name = "" → (∀ t ∈ db.mTemplates, ¬ t.name = name) →
        db.lookupTemplateFromName name = none)
    ∧ (∀ (name : String) (t : Template), ¬ name = "" →
        db.lookupTemplateFromName name = some t → t ∈ db.mTemplates ∧ t.name = name)
    ∧ (∀ brand part : String, ¬ brand = "" → ¬ part = "" →
        (∀ t ∈ db.mTemplates, ¬ (t.brand = brand ∧ t.part = part)) →
        db.lookupTemplateFromBrandPart brand part = none)
    ∧ (∀ (brand part : String) (t : Template), ¬ brand = "" → ¬ part = "" →
        db.lookupTemplateFromBrandPart brand part = some t →
        t ∈ db.mTemplates ∧ t.brand = brand ∧ t.part = part))
  ∧ (db.lookupPaperIdFromName "" = ""
    ∧ ∀ name : String, ¬ name = "" → (∀ p ∈ db.mPapers, ¬ p.name = name) →
        db.lookupPaperIdFromName name = "")

/-- Two selected objects entirely to the right of the 7200pt sentinel:
their pre-call minimum x1 is 8000. -/
def mC1x : LabelModel :=
  { mObjectList := [⟨0, 8000, 0, 8010, 10, true⟩, ⟨1, 9000, 0, 9010, 10, true⟩],
    mModified := false }

/-- Two ordinary selected objects for the C1 witness. -/
def mC1w : LabelModel :=
  { mObjectList := [⟨0, 0, 0, 10, 10, true⟩, ⟨1, 30, 5, 40, 15, true⟩],
    mModified := false }

/-- Two selected objects; object 0 is below object 1 in the stacking
order. -/
def mC2x : LabelModel :=
  { mObjectList := [⟨0, 0, 0, 1, 1, true⟩, ⟨1, 2, 2, 3, 3, true⟩],
    mModified := false }

/-- Three objects, the middle one unselected, for the C2 witness. -/
def mC2w : LabelModel :=
  { mObjectList := [⟨0, 0, 0, 1, 1, true⟩, ⟨1, 2, 2, 3, 3, false⟩, ⟨2, 4, 4, 5, 5, true⟩],
    mModified := false }

/-- Two selected objects with centers 7100 and 7300: their mean 7200 equals
the sentinel center, so neither object can beat the sentinel strictly. -/
def mC5x : LabelModel :=
  { mObjectList := [⟨0, 7050, 0, 7150, 10, true⟩, ⟨1, 7250, 0, 7350, 10, true⟩],
    mModified := false }

/-- The spec's scenario: three selected objects with centers (50,50),
(150,50) and (90,50). -/
def mC5w : LabelModel :=
  { mObjectList := [⟨0, 40, 45, 60, 55, true⟩, ⟨1, 140, 45, 160, 55, true⟩,
      ⟨2, 80, 45, 100, 55, true⟩],
    mModified := false }

/-- Two selected objects of different widths: extents (0,0)-(10,10) and
(5,0)-(30,10). -/
def mC6x : LabelModel :=
  { mObjectList := [⟨0, 0, 0, 10, 10, true⟩, ⟨1, 5, 0, 30, 10, true⟩],
    mModified := false }

/-- Two objects, the first selected, for the C8 witness. -/
def mC8w : LabelModel :=
  { mObjectList := [⟨0, 0, 0, 1, 1, true⟩, ⟨1, 2, 2, 3, 3, false⟩],
    mModified := false }

/-- A one-entry-per-family registry used by the C9 counterexample and
witness. -/
def paperA4 : Paper := { id := "A4", name := "A4 sheet" }

def dbEx : Db :=
  { mPapers := [paperA4],
    mCategories := [{ id := "any", name := "Any label" }],
    mVendors := [{ name := "Avery", url := "http://www.avery.com/" }],
    mTemplates := [{ brand := "Avery", part := "5160", name := "Avery 5160" }],
    mPaperNameOther := "Other" }

/-! ## Helper lemmas -/

theorem forall₂_map_self {R : LabelModelObject → LabelModelObject → Prop}
    (f : LabelModelObject → LabelModelObject) (l : List LabelModelObject)
    (h : ∀ o ∈ l, R o (f o)) : List.Forall₂ R l (l.map f) := by
  rw [List.forall₂_map_right_iff]
  exact List.forall₂_same.mpr h

theorem find?_eq_head?_filter (p : LabelModelObject → Bool) (l : List LabelModelObject) :
    l.find? p = (l.filter p).head? := by
  induction l with
  | nil => rfl
  | cons x xs ih =>
      by_cases hx : p x
      · rw [List.find?_cons_of_pos _ hx, List.filter_cons_of_pos hx, List.head?_cons]
      · rw [List.find?_cons_of_neg _ hx, List.filter_cons_of_neg hx, ih]

/-! ## C3 and C10: `selectRegion` -/

/-- C3: `selectRegion` selects exactly the objects whose extent is fully
contained in the normalized region (on all four edges), and changes no
identity or extent: an object ends selected iff it was selected before or its
extent is contained; in particular an object that merely intersects the
region without being contained is never newly selected. -/
theorem C3_selectRegion_containment (m : LabelModel) (region : LabelRegion) :
    List.Forall₂ (fun o o' =>
        o'.isSelected = (o.isSelected || region.containsExtent o.getExtent) ∧
        o'.id = o.id ∧ o'.getExtent = o.getExtent)
      m.mObjectList (m.selectRegion region).1.mObjectList := by
  apply forall₂_map_self
  intro o _
  by_cases hc : region.containsExtent o.getExtent
  · rw [if_pos hc]
    simp only [LabelModelObject.getExtent] at hc
    simp [hc, LabelModelObject.select, LabelModelObject.isSelected, LabelModelObject.getExtent]
  · rw [if_neg hc]
    simp only [Bool.not_eq_true] at hc
    simp [hc, LabelModelObject.isSelected]

/-- C10: `selectRegion` is monotone on the selection: every object selected
before the call is still selected after it. -/
theorem C10_selectRegion_monotone (m : LabelModel) (region : LabelRegion) :
    List.Forall₂ (fun o o' => o.isSelected = true → o'.isSelected = true)
      m.mObjectList (m.selectRegion region).1.mObjectList := by
  apply forall₂_map_self
  intro o _ hsel
  by_cases hc : region.containsExtent o.getExtent
  · rw [if_pos hc]
    simp [LabelModelObject.select, LabelModelObject.isSelected]
  · rw [if_neg hc]
    exact hsel

/-! ## C4: the selection accessors -/

/-- C4: the intended contract of the selection accessors, which the modelled
definitions satisfy: `getSelection` holds exactly the selected members of the
object list (the empty list when nothing is selected), and
`getFirstSelectedObject` is its first element (`none` when nothing is
selected).  The C++ bodies fall off the end without returning (see the doc
comments of `LabelModel.getSelection` and
`LabelModel.getFirstSelectedObject`), so the claim's totality fails on the
code as written. -/
theorem C4_selection_accessors_intended (m : LabelModel) :
    (∀ o, o ∈ m.getSelection ↔ o ∈ m.mObjectList ∧ o.isSelected = true)
    ∧ m.getFirstSelectedObject = m.getSelection.head? := by
  constructor
  · intro o
    simp [LabelModel.getSelection, List.mem_filter]
  · exact find?_eq_head?_filter _ _

/-! ## C7: frame of the selection-only operations -/

/-- C7: `selectObject`, `unselectObject`, `selectAll` and `unselectAll`
change only selected flags: each leaves every object's identity and extent
and the modified flag unchanged and emits exactly one `selectionChanged`
notification (never `changed`). -/
theorem C7_selection_ops_frame (m : LabelModel) (oid : ℕ) :
    ((m.selectObject oid).2 = [Event.selectionChanged]
      ∧ frameOnlySelection m (m.selectObject oid).1)
    ∧ ((m.unselectObject oid).2 = [Event.selectionChanged]
      ∧ frameOnlySelection m (m.unselectObject oid).1)
    ∧ ((m.selectAll).2 = [Event.selectionChanged]
      ∧ frameOnlySelection m (m.selectAll).1)
    ∧ ((m.unselectAll).2 = [Event.selectionChanged]
      ∧ frameOnlySelection m (m.unselectAll).1) := by
  refine ⟨⟨rfl, rfl, ?_⟩, ⟨rfl, rfl, ?_⟩, ⟨rfl, rfl, ?_⟩, ⟨rfl, rfl, ?_⟩⟩ <;>
      apply forall₂_map_self <;> intro o _
  · by_cases hid : o.id = oid
    · rw [if_pos hid]
      simp [LabelModelObject.select, LabelModelObject.getExtent]
    · rw [if_neg hid]
      exact ⟨rfl, rfl⟩
  · by_cases hid : o.id = oid
    · rw [if_pos hid]
      simp [LabelModelObject.unselect, LabelModelObject.getExtent]
    · rw [if_neg hid]
      exact ⟨rfl, rfl⟩
  · simp [LabelModelObject.select, LabelModelObject.getExtent]
  · simp [LabelModelObject.unselect, LabelModelObject.getExtent]

/-! ## C1, C5, C6: the alignment family -/

theorem if_lt_eq_min (a b : ℚ) : (if b < a then b else a) = min a b := by
  rcases lt_or_le b a with h | h
  · rw [if_pos h, min_eq_right h.le]
  · rw [if_neg (not_lt.mpr h), min_eq_left h]

theorem foldl_minclamp_x1 (l : List LabelModelObject) (a : ℚ) :
    l.foldl (fun acc o => if o.getExtent.x1 < acc then o.getExtent.x1 else acc) a
      = l.foldl (fun acc o => min acc o.getExtent.x1) a := by
  induction l generalizing a with
  | nil => rfl
  | cons x xs ih => rw [List.foldl_cons, List.foldl_cons, if_lt_eq_min, ih]

theorem guards_of_two_le {m : LabelModel}
    (h2 : 2 ≤ m.mObjectList.countP fun o => o.isSelected) :
    (m.isSelectionEmpty || m.isSelectionAtomic) = false := by
  have hpos : 0 < m.mObjectList.countP fun o => o.isSelected := by omega
  have hne : m.isSelectionEmpty = false := by
    simp only [LabelModel.isSelectionEmpty, Bool.not_eq_false', List.any_eq_true]
    exact List.countP_pos_iff.mp hpos
  have hat : m.isSelectionAtomic = false := by
    simp only [LabelModel.isSelectionAtomic, beq_eq_false_iff_ne, ne_eq]
    omega
  rw [hne, hat]
  rfl

/-- C1 amended: on a selection of two or more objects, `alignSelectionLeft`
moves every selected object so its left edge lands on the minimum of the
7200pt sentinel and the selected objects' pre-call x1 coordinates, keeping
width, y-coordinates, identity and selectedness, and leaves unselected
objects untouched. -/
theorem C1_alignSelectionLeft_amended (m : LabelModel)
    (h2 : 2 ≤ m.mObjectList.countP fun o => o.isSelected) :
    alignLeftOutcome m := by
  have hfold : (m.getSelection.foldl
      (fun acc o => if o.getExtent.x1 < acc then o.getExtent.x1 else acc) 7200)
      = selectionMinX1 m := foldl_minclamp_x1 _ _
  unfold alignLeftOutcome LabelModel.alignSelectionLeft
  rw [guards_of_two_le h2]
  simp only [Bool.false_eq_true, if_false, hfold]
  apply forall₂_map_self
  intro o _
  constructor
  · intro hsel
    rw [if_pos hsel]
    refine ⟨?_, ?_, ?_, ?_, rfl, hsel⟩
    · show o.x1 + (selectionMinX1 m - o.x1) = selectionMinX1 m
      ring
    · show o.x2 + (selectionMinX1 m - o.x1) - (o.x1 + (selectionMinX1 m - o.x1)) = o.x2 - o.x1
      ring
    · show o.y1 + 0 = o.y1
      ring
    · show o.y2 + 0 = o.y2
      ring
  · intro hsel
    rw [if_neg]
    rw [hsel]
    exact Bool.false_ne_true

/-- C1 counterexample: two selected objects whose extents lie entirely to the
right of the 7200pt sentinel; their pre-call minimum x1 is 8000, yet
`alignSelectionLeft` lines both left edges up at 7200, not at 8000. -/
theorem C1_counterexample :
    (mC1x.mObjectList.map fun o => o.getExtent.x1) = [8000, 9000] ∧
    ((mC1x.alignSelectionLeft).1.mObjectList.map fun o => o.getExtent.x1) = [7200, 7200] ∧
    ¬ (7200 : ℚ) = 8000 := by
  refine ⟨?_, ?_, by norm_num⟩ <;>
    norm_num [mC1x, LabelModel.alignSelectionLeft, LabelModel.getSelection,
      LabelModel.isSelectionEmpty, LabelModel.isSelectionAtomic, LabelModelObject.getExtent,
      LabelModelObject.setPositionRelative, LabelModelObject.isSelected, List.foldl,
      List.filter, List.countP, List.countP.go]

/-- C1 witness: the amended theorem applied to two ordinary selected
objects. -/
theorem C1_alignSelectionLeft_amended_witness :
    (2 ≤ mC1w.mObjectList.countP fun o => o.isSelected) ∧ alignLeftOutcome mC1w :=
  ⟨by decide, C1_alignSelectionLeft_amended mC1w (by decide)⟩

/-- C5 amended: on a selection of two or more objects,
`alignSelectionHCenter` moves every selected object so its horizontal center
lands on the anchor `hAnchor` — the candidate fold seeded with the sentinel
center 7200 at distance |mean - 7200|, replaced only by a strictly closer
selected center (so the first encountered wins ties between objects, and the
sentinel itself survives when no selected center is strictly closer) —
keeping width, y-coordinates, identity and selectedness, and leaves
unselected objects untouched. -/
theorem C5_alignSelectionHCenter_amended (m : LabelModel)
    (h2 : 2 ≤ m.mObjectList.countP fun o => o.isSelected) :
    alignHCenterOutcome m := by
  unfold alignHCenterOutcome LabelModel.alignSelectionHCenter
  rw [guards_of_two_le h2]
  simp only [Bool.false_eq_true, if_false]
  apply forall₂_map_self
  intro o _
  constructor
  · intro hsel
    rw [if_pos hsel]
    refine ⟨?_, ?_, ?_, ?_, rfl, hsel⟩
    · show (o.x1 + (hAnchor m - hCenter o) + (o.x2 + (hAnchor m - hCenter o))) / 2 = hAnchor m
      simp only [hCenter, LabelModelObject.getExtent]
      ring
    · show o.x2 + (hAnchor m - hCenter o) - (o.x1 + (hAnchor m - hCenter o)) = o.x2 - o.x1
      ring
    · show o.y1 + 0 = o.y1
      ring
    · show o.y2 + 0 = o.y2
      ring
  · intro hsel
    rw [if_neg]
    rw [hsel]
    exact Bool.false_ne_true

/-- C5 counterexample: two selected objects with centers 7100 and 7300.
Their mean is 7200, which is exactly the sentinel candidate's center, so
neither object is strictly closer and the sentinel wins: both objects are
centered at 7200 — a coordinate that is no selected object's pre-call
center, although the claim requires the anchor to be the selected object
closest to the mean (7100, the first of the two tied objects). -/
theorem C5_counterexample :
    (mC5x.mObjectList.map hCenter) = [7100, 7300] ∧
    ((mC5x.alignSelectionHCenter).1.mObjectList.map hCenter) = [7200, 7200] ∧
    ¬ (7200 : ℚ) ∈ mC5x.mObjectList.map hCenter := by
  refine ⟨?_, ?_, ?_⟩ <;>
    norm_num [mC5x, LabelModel.alignSelectionHCenter, hAnchor, hMean, hCenter,
      LabelModel.getSelection, LabelModel.isSelectionEmpty, LabelModel.isSelectionAtomic,
      LabelModelObject.getExtent, LabelModelObject.setPositionRelative,
      LabelModelObject.isSelected, List.foldl, List.filter, List.countP, List.countP.go]

/-- C5 witness, using the spec's own scenario: three selected objects with
centers 50, 150 and 90; the mean is 290/3 ≈ 96.67, the closest selected
center is 90, and all three objects end centered at 90. -/
theorem C5_alignSelectionHCenter_amended_witness :
    ((2 ≤ mC5w.mObjectList.countP fun o => o.isSelected) ∧ hAnchor mC5w = 90) ∧
    alignHCenterOutcome mC5w :=
  ⟨⟨by decide,
    by norm_num [mC5w, hAnchor, hMean, hCenter, LabelModel.getSelection,
      LabelModelObject.getExtent, LabelModelObject.isSelected, List.foldl, List.filter,
      abs_of_nonneg]⟩,
   C5_alignSelectionHCenter_amended mC5w (by decide)⟩

/-- C6: evaluation of `alignSelectionRight` at two selected objects of
different widths, extents (0,0)-(10,10) and (5,0)-(30,10).  The code lines
the **left** edges up at the maximum x1 (= 5); the right edges end at 15 and
30 and do not coincide, although both the code's own comments ("line up the
right edges at right-most edge") and the claim require the right edges to
meet. -/
theorem C6_alignSelectionRight_eval :
    ((mC6x.alignSelectionRight).1.mObjectList.map fun o => o.getExtent.x1) = [5, 5] ∧
    ((mC6x.alignSelectionRight).1.mObjectList.map fun o => o.getExtent.x2) = [15, 30] ∧
    ¬ (15 : ℚ) = 30 := by
  refine ⟨?_, ?_, by norm_num⟩ <;>
    norm_num [mC6x, LabelModel.alignSelectionRight, LabelModel.getSelection,
      LabelModel.isSelectionEmpty, LabelModel.isSelectionAtomic, LabelModelObject.getExtent,
      LabelModelObject.setPositionRelative, LabelModelObject.isSelected, List.foldl,
      List.filter, List.countP, List.countP.go]

/-! ## C2: restacking, and C8: deletion -/

theorem removeOneById_cons_ne (x : LabelModelObject) (l : List LabelModelObject) (oid : ℕ)
    (h : ¬ x.id = oid) : removeOneById (x :: l) oid = x :: removeOneById l oid := by
  simp [removeOneById, h]

theorem removeOneById_cons_self (x : LabelModelObject) (l : List LabelModelObject) :
    removeOneById (x :: l) x.id = l := by
  simp [removeOneById]

theorem foldl_removeOneById_cons (sel : List LabelModelObject) (x : LabelModelObject) :
    ∀ l : List LabelModelObject, (∀ o ∈ sel, ¬ o.id = x.id) →
      sel.foldl (fun acc o => removeOneById acc o.id) (x :: l)
        = x :: sel.foldl (fun acc o => removeOneById acc o.id) l := by
  induction sel with
  | nil => intro l _; rfl
  | cons s ss ih =>
      intro l h
      have hns : ¬ x.id = s.id := fun hx => h s (List.mem_cons_self _ _) hx.symm
      rw [List.foldl_cons, List.foldl_cons, removeOneById_cons_ne x l s.id hns]
      exact ih _ fun o ho => h o (List.mem_cons_of_mem _ ho)

/-- Removing each element of `l.filter p` in turn (by identity, as
`QList::removeOne` does) from a duplicate-free `l` leaves exactly the
elements not satisfying `p`. -/
theorem foldl_remove_filter (p : LabelModelObject → Bool) (l : List LabelModelObject)
    (h : (l.map fun o => o.id).Nodup) :
    (l.filter p).foldl (fun acc o => removeOneById acc o.id) l
      = l.filter fun o => !p o := by
  induction l with
  | nil => rfl
  | cons x xs ih =>
      rw [List.map_cons, List.nodup_cons] at h
      obtain ⟨hx, hxs⟩ := h
      have hne : ∀ o ∈ xs, ¬ o.id = x.id := by
        intro o ho hoid
        exact hx (List.mem_map.mpr ⟨o, ho, hoid⟩)
      by_cases hpx : p x
      · rw [List.filter_cons_of_pos hpx, List.foldl_cons, removeOneById_cons_self, ih hxs,
          List.filter_cons_of_neg (by simp [hpx])]
      · rw [List.filter_cons_of_neg hpx,
          foldl_removeOneById_cons _ x _ (fun o ho => hne o (List.mem_of_mem_filter ho)),
          ih hxs, List.filter_cons_of_pos (by simp [hpx])]

theorem foldl_cons_eq_reverse_append (sel : List LabelModelObject) :
    ∀ l : List LabelModelObject, sel.foldl (fun acc o => o :: acc) l = sel.reverse ++ l := by
  induction sel with
  | nil => intro l; rfl
  | cons s ss ih =>
      intro l
      rw [List.foldl_cons, ih (s :: l), List.reverse_cons, List.append_assoc]
      rfl

/-- C2 amended: with duplicate-free object identities,
`raiseSelectionToTop` reinserts the selected objects at the top preserving
their relative stacking order, while `lowerSelectionToBottom` reinserts them
at the bottom in **reversed** relative order (each is pushed onto the front
in turn); non-selected objects keep their relative order in both. -/
theorem C2_restack_amended (m : LabelModel)
    (h : (m.mObjectList.map fun o => o.id).Nodup) : restackOutcome m := by
  constructor
  · show (m.getSelection.foldl (fun acc o => removeOneById acc o.id) m.mObjectList)
        ++ m.getSelection = _
    rw [show m.getSelection = m.mObjectList.filter (fun o => o.isSelected) from rfl,
      foldl_remove_filter _ _ h]
  · show m.getSelection.foldl (fun acc o => o :: acc)
        (m.getSelection.foldl (fun acc o => removeOneById acc o.id) m.mObjectList) = _
    rw [show m.getSelection = m.mObjectList.filter (fun o => o.isSelected) from rfl,
      foldl_remove_filter _ _ h, foldl_cons_eq_reverse_append]

/-- C2 counterexample: two selected objects, object 0 below object 1.  After
`lowerSelectionToBottom` the stacking order is reversed: object 1 is now
below object 0, so the pair's relative order is not preserved. -/
theorem C2_counterexample :
    (mC2x.mObjectList.map fun o => o.id) = [0, 1] ∧
    ((mC2x.lowerSelectionToBottom).1.mObjectList.map fun o => o.id) = [1, 0] ∧
    ¬ ([1, 0] : List ℕ) = [0, 1] := by
  refine ⟨by decide, by decide, by decide⟩

/-- C2 witness: the amended theorem applied to a three-object model with an
unselected object in the middle. -/
theorem C2_restack_amended_witness :
    ((mC2w.mObjectList.map fun o => o.id).Nodup) ∧ restackOutcome mC2w :=
  ⟨by decide, C2_restack_amended mC2w (by decide)⟩

theorem mem_removeOneById_ne (oid : ℕ) :
    ∀ l : List LabelModelObject, (l.map fun o => o.id).Nodup →
      ∀ o ∈ removeOneById l oid, ¬ o.id = oid := by
  intro l
  induction l with
  | nil =>
      intro _ o ho
      simp [removeOneById] at ho
  | cons x xs ih =>
      intro h o ho
      rw [List.map_cons, List.nodup_cons] at h
      obtain ⟨hx, hxs⟩ := h
      by_cases hid : x.id = oid
      · rw [show removeOneById (x :: xs) oid = xs by simp [removeOneById, hid]] at ho
        intro hoid
        exact hx (List.mem_map.mpr ⟨o, ho, by rw [hoid, hid]⟩)
      · rw [removeOneById_cons_ne x xs oid hid] at ho
        rcases List.mem_cons.mp ho with rfl | ho
        · exact hid
        · exact ih hxs o ho

/-- C8: with duplicate-free object identities, after `deleteObject oid` no
object with identity `oid` remains in the object list, and `getSelection`
never returns it — even if it was selected at the moment of deletion. -/
theorem C8_delete_then_getSelection (m : LabelModel) (oid : ℕ)
    (h : (m.mObjectList.map fun o => o.id).Nodup) : deletedGone m oid := by
  have hids : ((m.mObjectList.map fun o => if o.id = oid then o.unselect else o).map
      fun o => o.id) = m.mObjectList.map fun o => o.id := by
    rw [List.map_map]
    apply List.map_congr_left
    intro o _
    by_cases hid : o.id = oid
    · simp [hid, LabelModelObject.unselect]
    · simp [hid]
  have hnd : ((m.mObjectList.map fun o => if o.id = oid then o.unselect else o).map
      fun o => o.id).Nodup := by
    rw [hids]; exact h
  constructor
  · intro o ho
    exact mem_removeOneById_ne oid _ hnd o ho
  · intro o ho
    exact mem_removeOneById_ne oid _ hnd o (List.mem_of_mem_filter ho)

/-- C8 witness: deleting the selected object 0 from a two-object model. -/
theorem C8_delete_then_getSelection_witness :
    ((mC8w.mObjectList.map fun o => o.id).Nodup) ∧ deletedGone mC8w 0 :=
  ⟨by decide, C8_delete_then_getSelection mC8w 0 (by decide)⟩

/-! ## C9: registry lookups -/

theorem head?_of_ne_nil {α : Type} {l : List α} (h : l ≠ []) :
    ∃ a, l.head? = some a := by
  cases l with
  | nil => exact absurd rfl h
  | cons a t => exact ⟨a, rfl⟩

/-- C9 amended: for the object-returning lookups of each registry family
(papers, categories, vendors, templates) a null/empty identifier yields the
first registered entry, a non-empty identifier with no match yields NULL
(`none`), and a returned entry is a registered entry matching the
identifier; the derived string-returning lookups, however, yield the empty
string — not the first entry — on a null/empty identifier. -/
theorem C9_registry_amended (db : Db)
    (hp : db.mPapers ≠ []) (hc : db.mCategories ≠ []) (hv : db.mVendors ≠ [])
    (ht : db.mTemplates ≠ []) : registryLookupOutcome db := by
  refine ⟨⟨?_, ?_, ?_, ?_, ?_⟩, ⟨?_, ?_, ?_, ?_, ?_⟩, ⟨?_, ?_, ?_⟩, ⟨?_, ?_, ?_, ?_, ?_⟩,
    ?_, ?_⟩
  · obtain ⟨p, hph⟩ := head?_of_ne_nil hp
    exact ⟨p, hph, by rw [Db.lookupPaperFromName, if_pos rfl]; exact hph,
      by rw [Db.lookupPaperFromId, if_pos rfl]; exact hph⟩
  · intro name hn hnone
    rw [Db.lookupPaperFromName, if_neg hn, List.find?_eq_none]
    intro p hpm
    simpa using hnone p hpm
  · intro name p hn hsome
    rw [Db.lookupPaperFromName, if_neg hn] at hsome
    exact ⟨List.mem_of_find?_eq_some hsome, by simpa using List.find?_some hsome⟩
  · intro pid hn hnone
    rw [Db.lookupPaperFromId, if_neg hn, List.find?_eq_none]
    intro p hpm
    simpa using hnone p hpm
  · intro pid p hn hsome
    rw [Db.lookupPaperFromId, if_neg hn] at hsome
    exact ⟨List.mem_of_find?_eq_some hsome, by simpa using List.find?_some hsome⟩
  · obtain ⟨c, hch⟩ := head?_of_ne_nil hc
    exact ⟨c, hch, by rw [Db.lookupCategoryFromName, if_pos rfl]; exact hch,
      by rw [Db.lookupCategoryFromId, if_pos rfl]; exact hch⟩
  · intro name hn hnone
    rw [Db.lookupCategoryFromName, if_neg hn, List.find?_eq_none]
    intro c hcm
    simpa using hnone c hcm
  · intro name c hn hsome
    rw [Db.lookupCategoryFromName, if_neg hn] at hsome
    exact ⟨List.mem_of_find?_eq_some hsome, by simpa using List.find?_some hsome⟩
  · intro cid hn hnone
    rw [Db.lookupCategoryFromId, if_neg hn, List.find?_eq_none]
    intro c hcm
    simpa using hnone c hcm
  · intro cid c hn hsome
    rw [Db.lookupCategoryFromId, if_neg hn] at hsome
    exact ⟨List.mem_of_find?_eq_some hsome, by simpa using List.find?_some hsome⟩
  · obtain ⟨v, hvh⟩ := head?_of_ne_nil hv
    exact ⟨v, hvh, by rw [Db.lookupVendorFromName, if_pos rfl]; exact hvh⟩
  · intro name hn hnone
    rw [Db.lookupVendorFromName, if_neg hn, List.find?_eq_none]
    intro v hvm
    simpa using hnone v hvm
  · intro name v hn hsome
    rw [Db.lookupVendorFromName, if_neg hn] at hsome
    exact ⟨List.mem_of_find?_eq_some hsome, by simpa using List.find?_some hsome⟩
  · obtain ⟨t, hth⟩ := head?_of_ne_nil ht
    refine ⟨t, hth, by rw [Db.lookupTemplateFromName, if_pos rfl]; exact hth, ?_⟩
    intro brand part h
    rw [Db.lookupTemplateFromBrandPart, if_pos (by rcases h with h | h <;> simp [h])]
    exact hth
  · intro name hn hnone
    rw [Db.lookupTemplateFromName, if_neg hn, List.find?_eq_none]
    intro t htm
    simpa using hnone t htm
  · intro name t hn hsome
    rw [Db.lookupTemplateFromName, if_neg hn] at hsome
    exact ⟨List.mem_of_find?_eq_some hsome, by simpa using List.find?_some hsome⟩
  · intro brand part hb hpt hnone
    rw [Db.lookupTemplateFromBrandPart, if_neg (by simp [hb, hpt]), List.find?_eq_none]
    intro t htm
    simp only [Bool.and_eq_true, beq_iff_eq, not_and]
    intro hbrand hpart
    exact hnone t htm ⟨hbrand, hpart⟩
  · intro brand part t hb hpt hsome
    rw [Db.lookupTemplateFromBrandPart, if_neg (by simp [hb, hpt])] at hsome
    refine ⟨List.mem_of_find?_eq_some hsome, ?_⟩
    have hmatch := List.find?_some hsome
    simp only [Bool.and_eq_true, beq_iff_eq] at hmatch
    exact hmatch
  · rw [Db.lookupPaperIdFromName, if_neg (by simp)]
  · intro name hn hnone
    have hfn : db.lookupPaperFromName name = none := by
      rw [Db.lookupPaperFromName, if_neg hn, List.find?_eq_none]
      intro p hpm
      simpa using hnone p hpm
    rw [Db.lookupPaperIdFromName, if_pos hn, hfn]

/-- C9 counterexample: in a registry whose first (and only) paper has id
"A4", the string-returning lookup `lookupPaperIdFromName` applied to the
empty name yields the empty string, not the first registered entry's id, so
the claim's "null or empty identifier yields the first registered entry as a
default" fails for the string-returning lookups. -/
theorem C9_counterexample :
    dbEx.lookupPaperIdFromName "" = "" ∧ dbEx.mPapers.head? = some paperA4 ∧
    ¬ paperA4.id = "" := by
  refine ⟨by decide, by decide, by decide⟩

/-- C9 witness: the amended theorem applied to the concrete one-entry
registry. -/
theorem C9_registry_amended_witness :
    (dbEx.mPapers ≠ [] ∧ dbEx.mCategories ≠ [] ∧ dbEx.mVendors ≠ [] ∧ dbEx.mTemplates ≠ []) ∧
    registryLookupOutcome dbEx :=
  ⟨⟨by decide, by decide, by decide, by decide⟩,
   C9_registry_amended dbEx (by decide) (by decide) (by decide) (by decide)⟩

end glabels
